import Mathlib

/-!
Shallow embedding of the pa11y accessibility-report service
(`src/index.js` and `src/unnamed/part_000`) and proofs about its
transformation core: WCAG code parsing, issue classification, issue
grouping, screenshot capture control flow, the per-standard scan
orchestrator and the HTTP endpoint validation.

JavaScript strings are Lean `String`s; JS objects holding issue data are
Lean structures; the insertion-ordered string-keyed object `grouped` is an
association list; asynchronous effectful steps (puppeteer calls, the pa11y
engine) are modelled by explicit environments recording each step's
outcome, with a thrown JS exception modelled as `Except.error`.
-/

namespace Pa11y

/-- A raw issue as produced by the pa11y engine (spec §3 RawIssue).
`helpUrl` is optional; a missing field is `none`. -/
structure RawIssue where
  code : String
  type : String
  message : String
  context : String
  selector : String
  helpUrl : Option String
deriving DecidableEq, Repr

/-- The `{A, AA, AAA}` level-flag record built by `getWcagLevel`. -/
structure WcagLevel where
  A : Bool
  AA : Bool
  AAA : Bool
deriving DecidableEq, Repr

/-- JS `sub` being a leading run of `s` (the test `^sub` at the start):
helper used to embed `String.prototype.includes` and the URL regex. -/
def strStarts : List Char → List Char → Bool
  | [], _ => true
  | _ :: _, [] => false
  | a :: as, b :: bs => a = b && strStarts as bs

/-- Substring containment of `sub` in `s`, scanning start positions left to
right; embeds `String.prototype.includes`. -/
def containsSub (sub : List Char) : List Char → Bool
  | [] => strStarts sub []
  | c :: cs => strStarts sub (c :: cs) || containsSub sub cs

/-- Embedding of `s.includes(sub)` from JavaScript. -/
def jsIncludes (s sub : String) : Bool :=
  containsSub sub.toList s.toList

/-- Embedding of the test `/^https?:\/\//.test(u)` used by both routes:
the string starts with `http://` or with `https://`. -/
def validUrl (u : String) : Bool :=
  strStarts "http://".toList u.toList || strStarts "https://".toList u.toList

/-- Embedding of `getWcagLevel` (src/index.js lines 62-68). -/
def getWcagLevel (standard : String) : WcagLevel :=
  { A := standard == "WCAG2A" || standard == "WCAG2AA" || standard == "WCAG2AAA"
    AA := standard == "WCAG2AA" || standard == "WCAG2AAA"
    AAA := standard == "WCAG2AAA" }

/-- Embedding of `getImpactLevel` (src/index.js lines 121-126). -/
def getImpactLevel (issue : RawIssue) : String :=
  if issue.type = "error" then "High"
  else if issue.type = "warning" then "Medium"
  else if issue.type = "notice" then "Low"
  else "Unknown"

/-- Embedding of `getResponsibility` (src/index.js lines 129-135): an
ordered chain of `includes` containment checks on the issue's code. -/
def getResponsibility (issue : RawIssue) : String :=
  if jsIncludes issue.code "1_" then "Design Team"
  else if jsIncludes issue.code "2_" then "Development Team"
  else if jsIncludes issue.code "3_" then "Content Team"
  else if jsIncludes issue.code "4_" then "Development Team"
  else "General Accessibility Compliance"

/-- One attempt of the regex `/Principle(\d)/` anchored at the head of the
character list: the literal `Principle` followed by a digit, capturing the
digit. -/
def principleAt : List Char → Option Char
  | 'P' :: 'r' :: 'i' :: 'n' :: 'c' :: 'i' :: 'p' :: 'l' :: 'e' :: d :: _ =>
    if d.isDigit then some d else none
  | _ => none

/-- Leftmost match of `/Principle(\d)/`: try each start position from the
left, as the JS regex engine does. -/
def findPrincipleDigit : List Char → Option Char
  | [] => none
  | c :: cs =>
    match principleAt (c :: cs) with
    | some d => some d
    | none => findPrincipleDigit cs

/-- Embedding of the `WCAG_PRINCIPLES` lookup table (src/index.js lines
14-19) applied to the captured digit, with the `|| "Best Practices"`
fallback for digits outside 1-4 used at line 145. -/
def principleName (d : Char) : String :=
  if d = '1' then "Perceivable"
  else if d = '2' then "Operable"
  else if d = '3' then "Understandable"
  else if d = '4' then "Robust"
  else "Best Practices"

/-- The principle name computed for an issue's code in `groupIssues`
(src/index.js lines 143-145): leftmost `Principle(\d)` capture mapped
through `WCAG_PRINCIPLES`, defaulting to `"Best Practices"` when the regex
does not match. -/
def principleOf (code : String) : String :=
  match findPrincipleDigit code.toList with
  | some d => principleName d
  | none => "Best Practices"

/-- The `WCAG_TITLES` table (src/index.js lines 22-44). -/
def WCAG_TITLES : List (String × String) :=
  [("1_1_1", "Missing Alternative Text for Images"),
   ("1_2_1", "No Captions for Audio/Video Content"),
   ("1_3_1", "Content Not Adaptable (Use Semantic HTML)"),
   ("1_4_3", "Low Contrast Text (Hard to Read)"),
   ("1_4_6", "Insufficient Contrast for AAA Compliance"),
   ("1_4_10", "User Zoom Restricted (Viewport Issues)"),
   ("1_4_11", "Non-Descriptive Focus Indicators (Low Visibility)"),
   ("2_1_1", "Keyboard Navigation Not Supported"),
   ("2_2_2", "Users Don't Have Enough Time to Read/Interact"),
   ("2_3_1", "Flashing Content (Seizure Risk)"),
   ("2_4_2", "No Clear Page Title (Hard to Identify Content)"),
   ("2_4_4", "Missing Descriptive Links (Improve Click Clarity)"),
   ("2_4_6", "Headings Are Not Descriptive"),
   ("2_5_3", "Pointer Gestures Require Multi-Touch or Path-Based Actions"),
   ("3_1_1", "Difficult Language (Simplify Content)"),
   ("3_2_3", "Unexpected Behavior When Navigating"),
   ("3_2_5", "Links Open in a New Window Without Indicating"),
   ("3_3_1", "No Input Error Identification (User Confusion)"),
   ("4_1_1", "Invalid HTML (Parsing Issues)"),
   ("4_1_2", "Forms & Components Not Accessible to Assistive Tech"),
   ("4_1_3", "Status Messages Are Not Read by Assistive Tech")]

/-- Consume a greedy `\d+` followed by the literal `sep`: succeed exactly
when the maximal digit run at the head is nonempty and the next character
is `sep`, yielding the run and the remainder. Because no digit equals the
following literal, the JS engine's backtracking never shortens the run, so
this is the exact behaviour of `(\d+)sep` at a fixed position. -/
def digitsThen (sep : Char) (s : List Char) : Option (List Char × List Char) :=
  match s.dropWhile (·.isDigit) with
  | c :: r =>
    if s.takeWhile (·.isDigit) = [] then none
    else if c = sep then some (s.takeWhile (·.isDigit), r) else none
  | [] => none

/-- One attempt of the regex `/(\d+)_\d+\.(\d+)_(\d+)_(\d+)/` anchored at
the head of the character list: five nonempty greedy digit runs separated
by `_`, `.`, `_`, `_` (the final run needs no following literal). Returns
the four captured groups; the second run is uncaptured in the source
regex. -/
def matchPatAt (s : List Char) : Option (String × String × String × String) :=
  match digitsThen '_' s with
  | none => none
  | some (a, r1) =>
    match digitsThen '.' r1 with
    | none => none
    | some (_b, r2) =>
      match digitsThen '_' r2 with
      | none => none
      | some (c, r3) =>
        match digitsThen '_' r3 with
        | none => none
        | some (d, r4) =>
          if r4.takeWhile (·.isDigit) = [] then none
          else some (⟨a⟩, ⟨c⟩, ⟨d⟩, ⟨r4.takeWhile (·.isDigit)⟩)

/-- Leftmost match of `/(\d+)_\d+\.(\d+)_(\d+)_(\d+)/`, scanning start
positions from the left as the JS regex engine does. -/
def findPat : List Char → Option (String × String × String × String)
  | [] => none
  | c :: cs =>
    match matchPatAt (c :: cs) with
    | some g => some g
    | none => findPat cs

/-- Embedding of `getWcagTitle` (src/index.js lines 47-54): build the key
`match[1]_match[3]_match[4]` and look it up, with the generic fallback both
when the key is absent and when the regex does not match. -/
def getWcagTitle (issueCode : String) : String :=
  match findPat issueCode.toList with
  | some (n, _, k, j) =>
    (WCAG_TITLES.lookup (n ++ "_" ++ k ++ "_" ++ j)).getD
      "Accessibility Issue Detected"
  | none => "Accessibility Issue Detected"

/-- Embedding of `getWcagTitleKey` (src/index.js lines 56-59). The source
guards on `match?.[3] && match?.[4]`; captured groups are nonempty digit
strings, hence always truthy, so the guard reduces to the match
succeeding. -/
def getWcagTitleKey (issueCode : String) : String :=
  match findPat issueCode.toList with
  | some (n, _, k, j) => n ++ "_" ++ k ++ "_" ++ j
  | none => "Unknown"

/-- Outcomes of the effectful puppeteer steps performed by one call of
`captureScreenshot` (src/index.js lines 71-118). `Except.error msg` models
the awaited promise rejecting (a thrown JS exception carrying `msg`).
`close` gives the outcome of the n-th `browser.close()` call of this
execution; `evalExists` is the `document.querySelector` existence check,
`query` is `page.$(selector)` returning an element handle or `null`, and
`screenshot` yields the captured buffer already base64-encoded. -/
structure PuppeteerEnv where
  launch : Except String Unit
  newPage : Except String Unit
  goto : Except String Unit
  evalExists : Except String Bool
  evalScroll : Except String Unit
  waitVisible : Except String Unit
  query : Except String (Option Unit)
  screenshot : Except String String
  close : Nat → Except String Unit

/-- Observable outcome of one `captureScreenshot` call: the returned value
or propagated exception, whether a browser session was launched, and how
many `browser.close()` calls were attempted and how many of those
succeeded. -/
structure CapOut where
  result : Except String (Option String)
  launched : Bool
  closeAttempts : Nat
  closeSuccesses : Nat
deriving Repr

/-- The `await browser.close(); return null` sequence at src/index.js
lines 116-117, reached after a caught exception or after the
element-not-visible warning; `attempts` close calls (all failed) happened
earlier in this execution. A failure of this close propagates to the
caller because it sits outside the try/catch. -/
def finalClose (env : PuppeteerEnv) (attempts : Nat) : CapOut :=
  match env.close attempts with
  | Except.ok _ => ⟨Except.ok none, true, attempts + 1, 1⟩
  | Except.error e => ⟨Except.error e, true, attempts + 1, 0⟩

/-- Embedding of `captureScreenshot` (src/index.js lines 71-118). The
empty selector is falsy in JS, so `if (!selector) return null` fires
before any browser work. `puppeteer.launch` and `browser.newPage` are
awaited outside the try/catch, so their failures propagate — and a
`newPage` failure leaves the launched session unclosed. Inside the try,
every failure jumps to the catch; the closes at lines 89 and 107 are
inside the try, so if such a close fails the catch runs and the close at
line 116 is attempted a second time. -/
def captureScreenshot (env : PuppeteerEnv) (selector : String) : CapOut :=
  if selector = "" then ⟨Except.ok none, false, 0, 0⟩
  else
    match env.launch with
    | Except.error e => ⟨Except.error e, false, 0, 0⟩
    | Except.ok _ =>
      match env.newPage with
      | Except.error e => ⟨Except.error e, true, 0, 0⟩
      | Except.ok _ =>
        match env.goto with
        | Except.error _ => finalClose env 0
        | Except.ok _ =>
          match env.evalExists with
          | Except.error _ => finalClose env 0
          | Except.ok false =>
            match env.close 0 with
            | Except.ok _ => ⟨Except.ok none, true, 1, 1⟩
            | Except.error _ => finalClose env 1
          | Except.ok true =>
            match env.evalScroll with
            | Except.error _ => finalClose env 0
            | Except.ok _ =>
              match env.waitVisible with
              | Except.error _ => finalClose env 0
              | Except.ok _ =>
                match env.query with
                | Except.error _ => finalClose env 0
                | Except.ok none => finalClose env 0
                | Except.ok (some _) =>
                  match env.screenshot with
                  | Except.error _ => finalClose env 0
                  | Except.ok b64 =>
                    match env.close 0 with
                    | Except.ok _ =>
                      ⟨Except.ok (some ("data:image/png;base64," ++ b64)),
                        true, 1, 1⟩
                    | Except.error _ => finalClose env 1

/-- An enriched issue as pushed into a bucket by `groupIssues`
(src/index.js lines 168-180). `screenshot = none` models the field being
absent (summary mode); `screenshot = some v` models the field set to
`captureScreenshot`'s return value `v` (full mode), itself `none` for JS
`null`. -/
structure IssueData where
  title : String
  titleKey : String
  message : String
  code : String
  level : WcagLevel
  context : String
  selector : String
  helpUrl : String
  impact : String
  responsibility : String
  occurrences : Nat
  screenshot : Option (Option String)
deriving DecidableEq, Repr

/-- The `{errors: [], warnings: [], notices: []}` record created per
principle (src/index.js lines 150-154). -/
structure Buckets where
  errors : List IssueData
  warnings : List IssueData
  notices : List IssueData
deriving DecidableEq, Repr

/-- The freshly created empty bucket record. -/
def emptyBuckets : Buckets := ⟨[], [], []⟩

/-- The insertion-ordered JS object `grouped`, keyed by principle name. -/
abbrev GroupedReport := List (String × Buckets)

/-- The three bucket names of `typeMapping` (src/index.js lines 157-161). -/
inductive BucketKind where
  | errors
  | warnings
  | notices
deriving DecidableEq, Repr

/-- Embedding of the `typeMapping[issue.type]` lookup: which bucket an
issue type selects, `none` for unknown types. -/
def typeBucket (t : String) : Option BucketKind :=
  if t = "error" then some BucketKind.errors
  else if t = "warning" then some BucketKind.warnings
  else if t = "notice" then some BucketKind.notices
  else none

/-- Append an enriched issue to one bucket of a record. -/
def addToBucket (bs : Buckets) (b : BucketKind) (d : IssueData) : Buckets :=
  match b with
  | BucketKind.errors => { bs with errors := bs.errors ++ [d] }
  | BucketKind.warnings => { bs with warnings := bs.warnings ++ [d] }
  | BucketKind.notices => { bs with notices := bs.notices ++ [d] }

/-- The `if (!grouped[principle]) grouped[principle] = {...}` step
(src/index.js lines 149-155): create the key with empty buckets when
absent, preserving insertion order. -/
def ensureKey (g : GroupedReport) (p : String) : GroupedReport :=
  if (g.lookup p).isSome then g else g ++ [(p, emptyBuckets)]

/-- The `grouped[principle][typeMapping[issue.type]].push(issueData)`
step: append to the named bucket of the first entry with this key. -/
def pushBucket : GroupedReport → String → BucketKind → IssueData → GroupedReport
  | [], _, _, _ => []
  | (p, bs) :: rest, k, b, d =>
    if p = k then (p, addToBucket bs b d) :: rest
    else (p, bs) :: pushBucket rest k b d

/-- The enriched issue object built at src/index.js lines 168-180, before
the optional screenshot assignment. `occurrences` counts strict-equality
code matches over the full input list `all`; `helpUrl` falls back to the
quickref link when the raw field is missing or empty (both falsy in JS). -/
def mkIssueData (all : List RawIssue) (standard : String) (issue : RawIssue) :
    IssueData :=
  { title := getWcagTitle issue.code
    titleKey := getWcagTitleKey issue.code
    message := issue.message
    code := issue.code
    level := getWcagLevel standard
    context := issue.context
    selector := issue.selector
    helpUrl :=
      match issue.helpUrl with
      | some u =>
        if u = "" then
          "https://www.w3.org/WAI/WCAG22/quickref/?showtechniques=1#" ++
            issue.code
        else u
      | none =>
        "https://www.w3.org/WAI/WCAG22/quickref/?showtechniques=1#" ++
          issue.code
    impact := getImpactLevel issue
    responsibility := getResponsibility issue
    occurrences := (all.filter (fun i => i.code == issue.code)).length
    screenshot := none }

/-- One iteration of the `for (let issue of issues)` loop of `groupIssues`
(src/index.js lines 142-191): ensure the principle key, then—for a
recognized type—build the enriched issue, optionally awaiting the
screenshot (whose thrown exception aborts the loop), and push it; an
unrecognized type only logs a warning. -/
def groupStep (all : List RawIssue) (standard : String) (mode : Bool)
    (shot : RawIssue → Except String (Option String))
    (g : GroupedReport) (issue : RawIssue) : Except String GroupedReport :=
  let p := principleOf issue.code
  let g1 := ensureKey g p
  match typeBucket issue.type with
  | none => Except.ok g1
  | some b =>
    if mode then
      match shot issue with
      | Except.error e => Except.error e
      | Except.ok v =>
        Except.ok (pushBucket g1 p b
          { mkIssueData all standard issue with screenshot := some v })
    else Except.ok (pushBucket g1 p b (mkIssueData all standard issue))

/-- The loop of `groupIssues` over the remaining issues; a thrown
exception (`Except.error`) stops the iteration and propagates. -/
def groupGo (all : List RawIssue) (standard : String) (mode : Bool)
    (shot : RawIssue → Except String (Option String)) :
    List RawIssue → GroupedReport → Except String GroupedReport
  | [], g => Except.ok g
  | issue :: rest, g =>
    match groupStep all standard mode shot g issue with
    | Except.error e => Except.error e
    | Except.ok g1 => groupGo all standard mode shot rest g1

/-- Embedding of `groupIssues` (src/index.js lines 138-194). `mode` is the
`includeScreenshot` flag; `shot` gives the result of the awaited
`captureScreenshot(url, issue.selector)` call for each issue, so the page
URL is folded into `shot`. An exception escaping the loop is the
`Except.error` case (caught further up, inside `runTest`). -/
def groupIssues (issues : List RawIssue) (standard : String) (mode : Bool)
    (shot : RawIssue → Except String (Option String)) :
    Except String GroupedReport :=
  groupGo issues standard mode shot issues []

/-- All enriched issues of one bucket record. -/
def bucketData (bs : Buckets) : List IssueData :=
  bs.errors ++ bs.warnings ++ bs.notices

/-- All enriched issues of a report, across principles and buckets. -/
def allData (g : GroupedReport) : List IssueData :=
  g.flatMap (fun x => bucketData x.2)

/-- A per-standard entry of the combined response: `{standard, grouped}`
on success, `{standard, error}` when the engine or the grouping threw
(src/index.js lines 220-230). -/
inductive StandardResult where
  | success (standard : String) (grouped : GroupedReport)
  | failure (standard : String) (error : String)
deriving DecidableEq, Repr

/-- The `standard` field of an entry, present in both shapes. -/
def StandardResult.standard : StandardResult → String
  | StandardResult.success s _ => s
  | StandardResult.failure s _ => s

/-- Embedding of `runTest` (src/index.js lines 197-231): call the pa11y
engine (outcome given by the oracle `engine`), group its issues, and catch
any exception of either stage into a `{standard, error}` entry. -/
def runTest (engine : String → Except String (List RawIssue))
    (shot : RawIssue → Except String (Option String))
    (standard : String) (mode : Bool) : StandardResult :=
  match engine standard with
  | Except.error e => StandardResult.failure standard e
  | Except.ok issues =>
    match groupIssues issues standard mode shot with
    | Except.error e => StandardResult.failure standard e
    | Except.ok g => StandardResult.success standard g

/-- The fixed ordered standards list of both routes (src/index.js lines
239 and 255). -/
def standardsList : List String := ["WCAG2A", "WCAG2AA", "WCAG2AAA"]

/-- The `Promise.all(standards.map(...))` of both routes: one `runTest`
per standard; entries are independent because each consults the oracles
only at its own standard. -/
def runTests (engine : String → Except String (List RawIssue))
    (shot : RawIssue → Except String (Option String)) (mode : Bool) :
    List StandardResult :=
  standardsList.map (fun s => runTest engine shot s mode)

/-- Body of an HTTP response of the two routes. -/
inductive RespBody where
  | errorBody (msg : String)
  | results (rs : List StandardResult)
deriving DecidableEq, Repr

/-- An HTTP response: status code and JSON body. -/
structure HttpResponse where
  status : Nat
  body : RespBody
deriving DecidableEq, Repr

/-- Embedding of the shared route body (src/index.js lines 233-263):
validate `req.query.url` (missing or empty is falsy; otherwise the
`^https?:\/\/` test must pass), answering 400 without starting any scan,
else run the three scans and answer 200. `mode` is `false` for
`/api/test/summary` and `true` for `/api/test/full`. -/
def handleRoute (engine : String → Except String (List RawIssue))
    (shot : RawIssue → Except String (Option String)) (mode : Bool)
    (queryUrl : Option String) : HttpResponse :=
  match queryUrl with
  | none => ⟨400, RespBody.errorBody "A valid URL is required"⟩
  | some u =>
    if u = "" || !validUrl u then
      ⟨400, RespBody.errorBody "A valid URL is required"⟩
    else ⟨200, RespBody.results (runTests engine shot mode)⟩

/-- The screenshot oracle induced by per-issue puppeteer environments:
what `await captureScreenshot(url, issue.selector)` yields for each issue
(value or thrown exception). -/
def shotOf (envOf : RawIssue → PuppeteerEnv) :
    RawIssue → Except String (Option String) :=
  fun issue => (captureScreenshot (envOf issue) issue.selector).result

/-- The grouped report of a per-standard entry, when it is a success. -/
def StandardResult.groupedOf : StandardResult → Option GroupedReport
  | StandardResult.success _ g => some g
  | StandardResult.failure _ _ => none

/-- Spec-side reading of substring containment: `sub` occurs contiguously
somewhere in `s` (at any position, not only at the start). -/
def OccursIn (sub s : String) : Prop :=
  ∃ pre post, s.toList = pre ++ (sub.toList ++ post)

/-- Every character of the block is a decimal digit. -/
def AllDigits (l : List Char) : Prop := ∀ c ∈ l, c.isDigit = true

/-- Spec-side reading of the parser contract (spec §4.1): the character
list embeds, at some position, five nonempty digit blocks separated by
`_`, `.`, `_`, `_` — the principle/guideline pair, then the
principle/criterion/sub-criterion triple of the WCAG code. -/
def EmbedsPatternL (s : List Char) : Prop :=
  ∃ pre a b c d e post,
    s = pre ++ a ++ '_' :: (b ++ '.' :: (c ++ '_' :: (d ++ '_' :: (e ++ post)))) ∧
    a ≠ [] ∧ b ≠ [] ∧ c ≠ [] ∧ d ≠ [] ∧ e ≠ [] ∧
    AllDigits a ∧ AllDigits b ∧ AllDigits c ∧ AllDigits d ∧ AllDigits e

/-- `EmbedsPatternL` on a string's characters. -/
def EmbedsPattern (code : String) : Prop := EmbedsPatternL code.toList

/-- One step of collecting first occurrences: append the key when new. -/
def insertFresh (ks : List String) (k : String) : List String :=
  if k ∈ ks then ks else ks ++ [k]

/-- A screenshot oracle that always yields a null screenshot. -/
def shot0 : RawIssue → Except String (Option String) :=
  fun _ => Except.ok none

/-- An engine oracle for which every scan succeeds with no issues. -/
def eng0 : String → Except String (List RawIssue) :=
  fun _ => Except.ok []

/-- An engine oracle that throws for WCAG2AA and succeeds otherwise. -/
def engAAFails : String → Except String (List RawIssue) :=
  fun s => if s = "WCAG2AA" then Except.error "Pa11y timed out" else Except.ok []

/-- A puppeteer environment in which every step succeeds: the element
exists, is visible, and the capture yields a base64 buffer. -/
def envAllOk : PuppeteerEnv :=
  ⟨Except.ok (), Except.ok (), Except.ok (), Except.ok true, Except.ok (),
    Except.ok (), Except.ok (some ()), Except.ok "iVBORw0KGgo",
    fun _ => Except.ok ()⟩

/-- A puppeteer environment in which `puppeteer.launch` rejects. -/
def envLaunchFails : PuppeteerEnv :=
  ⟨Except.error "Failed to launch the browser process", Except.ok (),
    Except.ok (), Except.ok true, Except.ok (), Except.ok (),
    Except.ok (some ()), Except.ok "iVBORw0KGgo", fun _ => Except.ok ()⟩

/-- A puppeteer environment in which the session launches but
`browser.newPage` rejects. -/
def envNewPageFails : PuppeteerEnv :=
  ⟨Except.ok (), Except.error "Protocol error: Connection closed",
    Except.ok (), Except.ok true, Except.ok (), Except.ok (),
    Except.ok (some ()), Except.ok "iVBORw0KGgo", fun _ => Except.ok ()⟩

/-- A puppeteer environment in which navigation times out inside the
try/catch; everything around it succeeds. -/
def envGotoFails : PuppeteerEnv :=
  ⟨Except.ok (), Except.ok (),
    Except.error "Navigation timeout of 60000 ms exceeded", Except.ok true,
    Except.ok (), Except.ok (), Except.ok (some ()), Except.ok "iVBORw0KGgo",
    fun _ => Except.ok ()⟩

/-- A raw error issue whose selector is `h1`. -/
def issueH1 : RawIssue :=
  ⟨"Principle1.1_1_1", "error", "msg", "ctx", "h1", none⟩

/-- A raw issue with the unrecognized type `foo` and a Principle-1 code. -/
def fooIssue : RawIssue :=
  ⟨"Principle1.x", "foo", "msg", "ctx", "sel", none⟩

/-- The three-issue scan of spec §8: two raw issues sharing one code and
one issue with a distinct code. -/
def specExampleIssues : List RawIssue :=
  [⟨"Principle1.1_1.1_1", "error", "m1", "c1", "s1", none⟩,
   ⟨"Principle1.1_1.1_1", "error", "m1", "c1", "s1", none⟩,
   ⟨"Principle2.4_1.2_1", "error", "m2", "c2", "s2", none⟩]

/-- A single-issue list whose only code has no principle digit and no
containment match, used to instantiate the grouping theorems. -/
def plainIssue : RawIssue := ⟨"x", "error", "m", "c", "s", none⟩

/-- The enriched issue produced for `plainIssue` under standard `WCAG2A`
without screenshots. -/
def plainData : IssueData :=
  { title := "Accessibility Issue Detected"
    titleKey := "Unknown"
    message := "m"
    code := "x"
    level := ⟨true, false, false⟩
    context := "c"
    selector := "s"
    helpUrl := "https://www.w3.org/WAI/WCAG22/quickref/?showtechniques=1#x"
    impact := "High"
    responsibility := "General Accessibility Compliance"
    occurrences := 1
    screenshot := none }

/-- What C7 asserts of the combined response once the engine throws for
WCAG2AA: still three entries in order, the middle one error-tagged, the
outer two exactly the per-standard results, each depending only on the
oracles' behaviour at its own standard. -/
def IndependenceSpec (engine : String → Except String (List RawIssue))
    (shot : RawIssue → Except String (Option String)) (mode : Bool)
    (msg : String) : Prop :=
  (runTests engine shot mode).length = 3 ∧
  (runTests engine shot mode)[1]? =
    some (StandardResult.failure "WCAG2AA" msg) ∧
  (runTests engine shot mode)[0]? = some (runTest engine shot "WCAG2A" mode) ∧
  (runTests engine shot mode)[2]? =
    some (runTest engine shot "WCAG2AAA" mode) ∧
  (∀ engine2 shot2 standard mode2, engine2 standard = engine standard →
    (∀ i, shot2 i = shot i) →
    runTest engine2 shot2 standard mode2 =
      runTest engine shot standard mode2) ∧
  (∀ standard2 issues g, engine standard2 = Except.ok issues →
    groupIssues issues standard2 mode shot = Except.ok g →
    runTest engine shot standard2 mode = StandardResult.success standard2 g)

/-- What C8 asserts of both routes: a missing or non-matching `url` query
answers 400 with the fixed error body and consults no oracle (no scan is
started), a matching one answers 200 with the three scan results, and the
URL test accepts exactly the strings beginning `http://` or `https://`. -/
def ValidationSpec (engine : String → Except String (List RawIssue))
    (shot : RawIssue → Except String (Option String)) (mode : Bool) : Prop :=
  handleRoute engine shot mode none =
    ⟨400, RespBody.errorBody "A valid URL is required"⟩ ∧
  (∀ u, validUrl u = false → handleRoute engine shot mode (some u) =
    ⟨400, RespBody.errorBody "A valid URL is required"⟩) ∧
  (∀ u engine2 shot2, validUrl u = false →
    handleRoute engine shot mode (some u) =
      handleRoute engine2 shot2 mode (some u)) ∧
  (∀ u, validUrl u = true → handleRoute engine shot mode (some u) =
    ⟨200, RespBody.results (runTests engine shot mode)⟩) ∧
  (∀ u, validUrl u = true ↔
    ∃ rest : String, u = "http://" ++ rest ∨ u = "https://" ++ rest)

/-- What C9 asserts of the summary results: three entries in standard
order and no screenshot field on any enriched issue. -/
def SummaryResultsOk (engine : String → Except String (List RawIssue))
    (shot : RawIssue → Except String (Option String)) : Prop :=
  (runTests engine shot false).length = 3 ∧
  (runTests engine shot false).map StandardResult.standard = standardsList ∧
  (∀ r ∈ runTests engine shot false, ∀ g, r.groupedOf = some g →
    ∀ d ∈ allData g, d.screenshot = none)

/-- What C9 asserts of the full results: three entries in standard order
and on every enriched issue a screenshot field holding either null or a
base64 PNG data URI. -/
def FullResultsOk (engine : String → Except String (List RawIssue))
    (envOf : RawIssue → PuppeteerEnv) : Prop :=
  (runTests engine (shotOf envOf) true).length = 3 ∧
  (runTests engine (shotOf envOf) true).map StandardResult.standard =
    standardsList ∧
  (∀ r ∈ runTests engine (shotOf envOf) true, ∀ g, r.groupedOf = some g →
    ∀ d ∈ allData g, ∃ v, d.screenshot = some v ∧
      (v = none ∨ ∃ b, v = some ("data:image/png;base64," ++ b)))

/-- The whole of C9 for one valid URL: both routes answer 200 with their
three results, summary issues carry no screenshot field, full issues carry
a null-or-data-URI screenshot field. -/
def RouteScreenshotSpec (engine : String → Except String (List RawIssue))
    (envOf : RawIssue → PuppeteerEnv) (u : String) : Prop :=
  handleRoute engine (shotOf envOf) false (some u) =
    ⟨200, RespBody.results (runTests engine (shotOf envOf) false)⟩ ∧
  handleRoute engine (shotOf envOf) true (some u) =
    ⟨200, RespBody.results (runTests engine (shotOf envOf) true)⟩ ∧
  SummaryResultsOk engine (shotOf envOf) ∧
  FullResultsOk engine envOf

theorem strStarts_iff (sub s : List Char) :
    strStarts sub s = true ↔ ∃ post, s = sub ++ post := by
  induction sub generalizing s with
  | nil => simp [strStarts]
  | cons a as ih =>
    cases s with
    | nil =>
      simp only [strStarts, List.cons_append]
      constructor
      · intro h; cases h
      · rintro ⟨post, h⟩; cases h
    | cons b bs =>
      simp only [strStarts, Bool.and_eq_true, decide_eq_true_eq, ih,
        List.cons_append]
      constructor
      · rintro ⟨rfl, post, rfl⟩; exact ⟨post, rfl⟩
      · rintro ⟨post, h⟩
        injection h with h1 h2
        exact ⟨h1.symm, post, h2⟩

theorem containsSub_iff (sub s : List Char) :
    containsSub sub s = true ↔ ∃ pre post, s = pre ++ (sub ++ post) := by
  induction s with
  | nil =>
    simp only [containsSub, strStarts_iff]
    constructor
    · rintro ⟨post, h⟩; exact ⟨[], post, h⟩
    · rintro ⟨pre, post, h⟩
      rcases List.append_eq_nil.mp h.symm with ⟨rfl, h2⟩
      exact ⟨post, h2.symm⟩
  | cons c cs ih =>
    simp only [containsSub, Bool.or_eq_true, strStarts_iff, ih]
    constructor
    · rintro (⟨post, h⟩ | ⟨pre, post, rfl⟩)
      · exact ⟨[], post, h⟩
      · exact ⟨c :: pre, post, rfl⟩
    · rintro ⟨pre, post, h⟩
      cases pre with
      | nil => exact Or.inl ⟨post, h⟩
      | cons p ps =>
        injection h with h1 h2
        exact Or.inr ⟨ps, post, h2⟩

theorem jsIncludes_iff (s sub : String) :
    jsIncludes s sub = true ↔ OccursIn sub s := by
  unfold jsIncludes OccursIn
  exact containsSub_iff sub.toList s.toList

/-- C3: responsibility is decided by un-anchored substring containment of
`1_`, `2_`, `3_`, `4_` on the issue code, checked in that order — each
team's output is characterized by which pairs occur anywhere in the code,
with the general fallback exactly when none occurs; and on a realistic
Principle-2 code the pair `2_` occurs away from position 0 yet still
selects the Development Team, confirming containment rather than anchored
matching. -/
theorem getResponsibility_spec (issue : RawIssue) :
    (getResponsibility issue = "Design Team" ↔ OccursIn "1_" issue.code) ∧
    (getResponsibility issue = "Development Team" ↔
      (¬ OccursIn "1_" issue.code ∧ OccursIn "2_" issue.code) ∨
      (¬ OccursIn "1_" issue.code ∧ ¬ OccursIn "2_" issue.code ∧
        ¬ OccursIn "3_" issue.code ∧ OccursIn "4_" issue.code)) ∧
    (getResponsibility issue = "Content Team" ↔
      (¬ OccursIn "1_" issue.code ∧ ¬ OccursIn "2_" issue.code ∧
        OccursIn "3_" issue.code)) ∧
    (getResponsibility issue = "General Accessibility Compliance" ↔
      (¬ OccursIn "1_" issue.code ∧ ¬ OccursIn "2_" issue.code ∧
        ¬ OccursIn "3_" issue.code ∧ ¬ OccursIn "4_" issue.code)) ∧
    getResponsibility
      ⟨"WCAG2AA.Principle2.Guideline2_4.2_4_2.H25.2", "error", "", "", "",
        none⟩ = "Development Team" := by
  have hb : ∀ sub : String, OccursIn sub issue.code →
      jsIncludes issue.code sub = true :=
    fun sub h => (jsIncludes_iff _ _).mpr h
  have hnb : ∀ sub : String, ¬ OccursIn sub issue.code →
      jsIncludes issue.code sub = false := by
    intro sub h
    cases hx : jsIncludes issue.code sub
    · rfl
    · exact absurd ((jsIncludes_iff _ _).mp hx) h
  refine ⟨?_, ?_, ?_, ?_, by decide⟩ <;>
    (by_cases h1 : OccursIn "1_" issue.code <;>
     by_cases h2 : OccursIn "2_" issue.code <;>
     by_cases h3 : OccursIn "3_" issue.code <;>
     by_cases h4 : OccursIn "4_" issue.code <;>
     simp [getResponsibility, hb, hnb, h1, h2, h3, h4])

/-- Witness for C3 at a concrete code containing `4_` and none of the
earlier pairs: the responsibility is the Development Team. -/
theorem getResponsibility_spec_witness :
    getResponsibility ⟨"4_2", "error", "", "", "", none⟩ =
      "Development Team" := by
  have h := (getResponsibility_spec ⟨"4_2", "error", "", "", "", none⟩).2.1
  have n : ∀ sub : String, jsIncludes "4_2" sub = false →
      ¬ OccursIn sub "4_2" :=
    fun sub hf hocc => absurd ((jsIncludes_iff "4_2" sub).mpr hocc)
      (by rw [hf]; decide)
  exact h.mpr (Or.inr ⟨n "1_" (by decide), n "2_" (by decide),
    n "3_" (by decide), ⟨[], ['2'], rfl⟩⟩)

theorem takeWhile_digits_append (a : List Char) (c : Char) (r : List Char)
    (ha : AllDigits a) (hc : c.isDigit = false) :
    (a ++ c :: r).takeWhile (·.isDigit) = a ∧
      (a ++ c :: r).dropWhile (·.isDigit) = c :: r := by
  induction a with
  | nil => simp [List.takeWhile_cons, List.dropWhile_cons, hc]
  | cons x xs ih =>
    have hx : x.isDigit = true := ha x (List.mem_cons_self x xs)
    have ih' := ih (fun y hy => ha y (List.mem_cons_of_mem x hy))
    simp [List.takeWhile_cons, List.dropWhile_cons, hx, ih'.1, ih'.2]

theorem takeWhile_digits_ne_nil (e post : List Char) (he : e ≠ [])
    (hd : AllDigits e) : (e ++ post).takeWhile (·.isDigit) ≠ [] := by
  cases e with
  | nil => exact absurd rfl he
  | cons x xs =>
    have hx : x.isDigit = true := hd x (List.mem_cons_self x xs)
    simp [List.takeWhile_cons, hx]

theorem digitsThen_sound (sep : Char) (s a r : List Char)
    (h : digitsThen sep s = some (a, r)) :
    s = a ++ sep :: r ∧ a ≠ [] ∧ AllDigits a := by
  have hsplit := List.takeWhile_append_dropWhile (p := (·.isDigit)) (l := s)
  cases hd : s.dropWhile (·.isDigit) with
  | nil => simp [digitsThen, hd] at h
  | cons c rest =>
    simp only [digitsThen, hd] at h
    by_cases hnil : s.takeWhile (·.isDigit) = []
    · simp [hnil] at h
    · rw [if_neg hnil] at h
      by_cases hsep : c = sep
      · rw [if_pos hsep] at h
        simp only [Option.some.injEq, Prod.mk.injEq] at h
        obtain ⟨h1, h2⟩ := h
        subst h1; subst h2; subst hsep
        refine ⟨?_, hnil, fun y hy => List.mem_takeWhile_imp hy⟩
        rw [hd] at hsplit
        exact hsplit.symm
      · rw [if_neg hsep] at h
        exact absurd h (by simp)

theorem digitsThen_complete (sep : Char) (a r : List Char) (ha : a ≠ [])
    (hd : AllDigits a) (hsep : sep.isDigit = false) :
    digitsThen sep (a ++ sep :: r) = some (a, r) := by
  obtain ⟨ht, hdw⟩ := takeWhile_digits_append a sep r hd hsep
  simp [digitsThen, ht, hdw, ha]

theorem matchPatAt_sound (s : List Char) (g1 g2 g3 g4 : String)
    (h : matchPatAt s = some (g1, g2, g3, g4)) :
    ∃ b post,
      s = g1.toList ++ '_' :: (b ++ '.' :: (g2.toList ++ '_' ::
        (g3.toList ++ '_' :: (g4.toList ++ post)))) ∧
      g1.toList ≠ [] ∧ b ≠ [] ∧ g2.toList ≠ [] ∧ g3.toList ≠ [] ∧
      g4.toList ≠ [] ∧ AllDigits g1.toList ∧ AllDigits b ∧
      AllDigits g2.toList ∧ AllDigits g3.toList ∧ AllDigits g4.toList := by
  cases h1 : digitsThen '_' s with
  | none => simp [matchPatAt, h1] at h
  | some ar1 =>
    obtain ⟨a, r1⟩ := ar1
    cases h2 : digitsThen '.' r1 with
    | none => simp [matchPatAt, h1, h2] at h
    | some br2 =>
      obtain ⟨b, r2⟩ := br2
      cases h3 : digitsThen '_' r2 with
      | none => simp [matchPatAt, h1, h2, h3] at h
      | some cr3 =>
        obtain ⟨c, r3⟩ := cr3
        cases h4 : digitsThen '_' r3 with
        | none => simp [matchPatAt, h1, h2, h3, h4] at h
        | some dr4 =>
          obtain ⟨d, r4⟩ := dr4
          simp only [matchPatAt, h1, h2, h3, h4] at h
          by_cases he : r4.takeWhile (·.isDigit) = []
          · simp [he] at h
          · rw [if_neg he] at h
            simp only [Option.some.injEq, Prod.mk.injEq] at h
            obtain ⟨ha1, hb1, hc1, hd1⟩ := h
            obtain ⟨hs1, hane, haD⟩ := digitsThen_sound _ _ _ _ h1
            obtain ⟨hs2, hbne, hbD⟩ := digitsThen_sound _ _ _ _ h2
            obtain ⟨hs3, hcne, hcD⟩ := digitsThen_sound _ _ _ _ h3
            obtain ⟨hs4, hdne, hdD⟩ := digitsThen_sound _ _ _ _ h4
            refine ⟨b, r4.dropWhile (·.isDigit), ?_, ?_, hbne, ?_, ?_, ?_,
              ?_, hbD, ?_, ?_, ?_⟩
            · rw [← ha1, ← hb1, ← hc1, ← hd1]
              show s = a ++ '_' :: (b ++ '.' :: (c ++ '_' :: (d ++ '_' ::
                (r4.takeWhile (·.isDigit) ++ r4.dropWhile (·.isDigit)))))
              rw [List.takeWhile_append_dropWhile, ← hs4, ← hs3, ← hs2, hs1]
            · rw [← ha1]; exact hane
            · rw [← hb1]; exact hcne
            · rw [← hc1]; exact hdne
            · rw [← hd1]; exact he
            · rw [← ha1]; exact haD
            · rw [← hb1]; exact hcD
            · rw [← hc1]; exact hdD
            · rw [← hd1]
              exact fun y hy => List.mem_takeWhile_imp hy

theorem matchPatAt_complete (a b c d e post : List Char)
    (hane : a ≠ []) (hbne : b ≠ []) (hcne : c ≠ []) (hdne : d ≠ [])
    (hene : e ≠ []) (haD : AllDigits a) (hbD : AllDigits b)
    (hcD : AllDigits c) (hdD : AllDigits d) (heD : AllDigits e) :
    ∃ g, matchPatAt (a ++ '_' :: (b ++ '.' :: (c ++ '_' :: (d ++ '_' ::
      (e ++ post))))) = some g := by
  simp only [matchPatAt,
    digitsThen_complete '_' a _ hane haD (by decide),
    digitsThen_complete '.' b _ hbne hbD (by decide),
    digitsThen_complete '_' c _ hcne hcD (by decide),
    digitsThen_complete '_' d _ hdne hdD (by decide)]
  rw [if_neg (takeWhile_digits_ne_nil e post hene heD)]
  exact ⟨_, rfl⟩

theorem findPat_cons (c : Char) (cs : List Char) :
    findPat (c :: cs) =
      match matchPatAt (c :: cs) with
      | some g => some g
      | none => findPat cs := rfl

theorem embedsPatternL_cons (x : Char) (xs : List Char)
    (h : EmbedsPatternL xs) : EmbedsPatternL (x :: xs) := by
  obtain ⟨pre, a, b, c, d, e, post, hs, hrest⟩ := h
  exact ⟨x :: pre, a, b, c, d, e, post, by rw [hs]; rfl, hrest⟩

theorem findPat_sound (s : List Char)
    (g : String × String × String × String) (h : findPat s = some g) :
    EmbedsPatternL s := by
  induction s with
  | nil => simp [findPat] at h
  | cons x xs ih =>
    rw [findPat] at h
    cases hm : matchPatAt (x :: xs) with
    | some g' =>
      obtain ⟨g1, g2, g3, g4⟩ := g'
      obtain ⟨b, post, hs, hane, hbne, hcne, hdne, hene, haD, hbD, hcD,
        hdD, heD⟩ := matchPatAt_sound _ _ _ _ _ hm
      exact ⟨[], g1.toList, b, g2.toList, g3.toList, g4.toList, post,
        by simpa using hs, hane, hbne, hcne, hdne, hene, haD, hbD, hcD,
        hdD, heD⟩
    | none =>
      rw [hm] at h
      exact embedsPatternL_cons x xs (ih h)

theorem findPat_isSome_of_embeds (s : List Char) (h : EmbedsPatternL s) :
    findPat s ≠ none := by
  obtain ⟨pre, a, b, c, d, e, post, hs, hane, hbne, hcne, hdne, hene, haD,
    hbD, hcD, hdD, heD⟩ := h
  subst hs
  induction pre with
  | nil =>
    cases a with
    | nil => exact absurd rfl hane
    | cons x a' =>
      obtain ⟨g, hg⟩ := matchPatAt_complete (x :: a') b c d e post hane
        hbne hcne hdne hene haD hbD hcD hdD heD
      simp only [List.nil_append, List.cons_append] at hg ⊢
      rw [findPat_cons, hg]
      simp
  | cons p ps ih =>
    simp only [List.cons_append]
    rw [findPat_cons]
    split
    · simp
    · exact ih

/-- C5: the issue-code parser is the leftmost match of the embedded
digit-block pattern: a match exists exactly when the code embeds five
nonempty digit blocks separated by underscore, dot, underscore,
underscore; on a match, `getWcagTitleKey` is the key assembled from the
first, third and fourth captured groups joined by underscores and
`getWcagTitle` is that key's table entry with the generic fallback when
the key is absent; with no match the key is Unknown and the title is the
generic string. -/
theorem wcag_title_key_spec (code : String) :
    (EmbedsPattern code ↔ findPat code.toList ≠ none) ∧
    (∀ g1 g2 g3 g4, findPat code.toList = some (g1, g2, g3, g4) →
      getWcagTitleKey code = g1 ++ "_" ++ g3 ++ "_" ++ g4 ∧
      getWcagTitle code =
        (WCAG_TITLES.lookup (g1 ++ "_" ++ g3 ++ "_" ++ g4)).getD
          "Accessibility Issue Detected") ∧
    (findPat code.toList = none →
      getWcagTitleKey code = "Unknown" ∧
      getWcagTitle code = "Accessibility Issue Detected") := by
  refine ⟨⟨fun h => findPat_isSome_of_embeds _ h, fun h => ?_⟩,
    fun g1 g2 g3 g4 h => ?_, fun h => ?_⟩
  · cases hm : findPat code.toList with
    | none => exact absurd hm h
    | some g => exact findPat_sound _ g hm
  · constructor
    · unfold getWcagTitleKey
      rw [h]
    · unfold getWcagTitle
      rw [h]
  · constructor
    · unfold getWcagTitleKey
      rw [h]
    · unfold getWcagTitle
      rw [h]

/-- Witness for C5 at a realistic pa11y issue code: the pattern
`1_1.1_1_1` is found, the key is `1_1_1` and the title is the table entry
for criterion 1.1.1. -/
theorem wcag_title_key_spec_witness :
    getWcagTitleKey "WCAG2AA.Principle1.Guideline1_1.1_1_1.H30.2" =
      "1_1_1" ∧
    getWcagTitle "WCAG2AA.Principle1.Guideline1_1.1_1_1.H30.2" =
      "Missing Alternative Text for Images" := by
  have h := (wcag_title_key_spec
    "WCAG2AA.Principle1.Guideline1_1.1_1_1.H30.2").2.1 "1" "1" "1" "1"
    (by decide)
  exact ⟨h.1, by rw [h.2]; decide⟩

theorem allData_nil : allData [] = [] := rfl

theorem allData_cons (e : String × Buckets) (g : GroupedReport) :
    allData (e :: g) = bucketData e.2 ++ allData g := by
  simp [allData]

theorem allData_ensureKey (g : GroupedReport) (p : String) :
    allData (ensureKey g p) = allData g := by
  unfold ensureKey
  split
  · rfl
  · simp [allData, bucketData, emptyBuckets]

theorem mem_bucketData_addToBucket (bs : Buckets) (b : BucketKind)
    (d d' : IssueData) :
    d' ∈ bucketData (addToBucket bs b d) ↔ d' ∈ bucketData bs ∨ d' = d := by
  cases b <;> simp [addToBucket, bucketData] <;> tauto

theorem bucketData_addToBucket_length (bs : Buckets) (b : BucketKind)
    (d : IssueData) :
    (bucketData (addToBucket bs b d)).length = (bucketData bs).length + 1 := by
  cases b <;> simp [addToBucket, bucketData] <;> omega

theorem mem_allData_pushBucket (g : GroupedReport) (k : String)
    (b : BucketKind) (d d' : IssueData)
    (h : d' ∈ allData (pushBucket g k b d)) : d' ∈ allData g ∨ d' = d := by
  induction g with
  | nil => simp [pushBucket, allData] at h
  | cons e rest ih =>
    obtain ⟨p, bs⟩ := e
    by_cases hpk : p = k
    · rw [pushBucket, if_pos hpk, allData_cons] at h
      rw [allData_cons]
      rcases List.mem_append.mp h with h' | h'
      · rcases (mem_bucketData_addToBucket bs b d d').mp h' with h'' | h''
        · exact Or.inl (List.mem_append.mpr (Or.inl h''))
        · exact Or.inr h''
      · exact Or.inl (List.mem_append.mpr (Or.inr h'))
    · rw [pushBucket, if_neg hpk, allData_cons] at h
      rw [allData_cons]
      rcases List.mem_append.mp h with h' | h'
      · exact Or.inl (List.mem_append.mpr (Or.inl h'))
      · rcases ih h' with h'' | h''
        · exact Or.inl (List.mem_append.mpr (Or.inr h''))
        · exact Or.inr h''

theorem lookup_isSome_iff (g : GroupedReport) (p : String) :
    (g.lookup p).isSome = true ↔ p ∈ g.map Prod.fst := by
  induction g with
  | nil => simp
  | cons e rest ih =>
    obtain ⟨q, bs⟩ := e
    by_cases hpq : p = q
    · subst hpq; simp [List.lookup]
    · simp [List.lookup, beq_false_of_ne hpq, ih, hpq]

theorem allData_pushBucket_length (g : GroupedReport) (k : String)
    (b : BucketKind) (d : IssueData) (hk : (g.lookup k).isSome = true) :
    (allData (pushBucket g k b d)).length = (allData g).length + 1 := by
  induction g with
  | nil => simp [List.lookup] at hk
  | cons e rest ih =>
    obtain ⟨p, bs⟩ := e
    by_cases hpk : p = k
    · rw [pushBucket, if_pos hpk, allData_cons, allData_cons]
      simp [bucketData_addToBucket_length]
      omega
    · rw [pushBucket, if_neg hpk, allData_cons, allData_cons]
      have hkp : (k == p) = false := beq_false_of_ne (fun h => hpk h.symm)
      rw [List.lookup_cons] at hk
      simp only [hkp] at hk
      have := ih hk
      simp only [List.length_append, this]
      omega

theorem pushBucket_keys (g : GroupedReport) (k : String) (b : BucketKind)
    (d : IssueData) : (pushBucket g k b d).map Prod.fst = g.map Prod.fst := by
  induction g with
  | nil => rfl
  | cons e rest ih =>
    obtain ⟨p, bs⟩ := e
    by_cases hpk : p = k
    · rw [pushBucket, if_pos hpk]; rfl
    · rw [pushBucket, if_neg hpk]
      simp [ih]

theorem ensureKey_keys (g : GroupedReport) (p : String) :
    (ensureKey g p).map Prod.fst =
      if p ∈ g.map Prod.fst then g.map Prod.fst
      else g.map Prod.fst ++ [p] := by
  unfold ensureKey
  by_cases hk : (g.lookup p).isSome = true
  · rw [if_pos hk, if_pos ((lookup_isSome_iff g p).mp hk)]
  · rw [if_neg hk, if_neg (fun hm => hk ((lookup_isSome_iff g p).mpr hm))]
    simp

theorem lookup_ensureKey_self (g : GroupedReport) (p : String) :
    ((ensureKey g p).lookup p).isSome = true := by
  rw [lookup_isSome_iff, ensureKey_keys]
  by_cases hm : p ∈ g.map Prod.fst
  · rw [if_pos hm]; exact hm
  · rw [if_neg hm]; simp

theorem groupGo_nil (all : List RawIssue) (standard : String) (mode : Bool)
    (shot : RawIssue → Except String (Option String)) (g : GroupedReport) :
    groupGo all standard mode shot [] g = Except.ok g := rfl

theorem groupGo_cons (all : List RawIssue) (standard : String) (mode : Bool)
    (shot : RawIssue → Except String (Option String)) (issue : RawIssue)
    (rest : List RawIssue) (g : GroupedReport) :
    groupGo all standard mode shot (issue :: rest) g =
      match groupStep all standard mode shot g issue with
      | Except.error e => Except.error e
      | Except.ok g1 => groupGo all standard mode shot rest g1 := rfl

theorem groupStep_ok (all : List RawIssue) (standard : String) (mode : Bool)
    (shot : RawIssue → Except String (Option String)) (g : GroupedReport)
    (issue : RawIssue) (g1 : GroupedReport)
    (h : groupStep all standard mode shot g issue = Except.ok g1) :
    (typeBucket issue.type = none ∧
      g1 = ensureKey g (principleOf issue.code)) ∨
    (∃ b, typeBucket issue.type = some b ∧ mode = false ∧
      g1 = pushBucket (ensureKey g (principleOf issue.code))
        (principleOf issue.code) b (mkIssueData all standard issue)) ∨
    (∃ b v, typeBucket issue.type = some b ∧ mode = true ∧
      shot issue = Except.ok v ∧
      g1 = pushBucket (ensureKey g (principleOf issue.code))
        (principleOf issue.code) b
        { mkIssueData all standard issue with screenshot := some v }) := by
  cases htb : typeBucket issue.type with
  | none =>
    simp [groupStep, htb] at h
    exact Or.inl ⟨rfl, h.symm⟩
  | some b =>
    cases mode with
    | false =>
      simp [groupStep, htb] at h
      exact Or.inr (Or.inl ⟨b, rfl, rfl, h.symm⟩)
    | true =>
      cases hs : shot issue with
      | error e => simp [groupStep, htb, hs] at h
      | ok v =>
        simp [groupStep, htb, hs] at h
        exact Or.inr (Or.inr ⟨b, v, rfl, rfl, rfl, h.symm⟩)

theorem groupGo_all_data (all : List RawIssue) (standard : String)
    (mode : Bool) (shot : RawIssue → Except String (Option String))
    (P : IssueData → Prop)
    (hF : ∀ issue b, typeBucket issue.type = some b → mode = false →
      P (mkIssueData all standard issue))
    (hT : ∀ issue b v, typeBucket issue.type = some b → mode = true →
      shot issue = Except.ok v →
      P { mkIssueData all standard issue with screenshot := some v }) :
    ∀ (rest : List RawIssue) (g0 g : GroupedReport),
      groupGo all standard mode shot rest g0 = Except.ok g →
      (∀ d ∈ allData g0, P d) → ∀ d ∈ allData g, P d := by
  intro rest
  induction rest with
  | nil =>
    intro g0 g h h0
    rw [groupGo_nil] at h
    cases h
    exact h0
  | cons issue rest ih =>
    intro g0 g h h0
    rw [groupGo_cons] at h
    cases hst : groupStep all standard mode shot g0 issue with
    | error e => simp only [hst] at h; cases h
    | ok g1 =>
      simp only [hst] at h
      refine ih g1 g h ?_
      intro d hd
      rcases groupStep_ok _ _ _ _ _ _ _ hst with ⟨htb, rfl⟩ |
        ⟨b, htb, hm, rfl⟩ | ⟨b, v, htb, hm, hsv, rfl⟩
      · rw [allData_ensureKey] at hd
        exact h0 d hd
      · rcases mem_allData_pushBucket _ _ _ _ _ hd with hd' | rfl
        · rw [allData_ensureKey] at hd'
          exact h0 d hd'
        · exact hF issue b htb hm
      · rcases mem_allData_pushBucket _ _ _ _ _ hd with hd' | rfl
        · rw [allData_ensureKey] at hd'
          exact h0 d hd'
        · exact hT issue b v htb hm hsv

theorem groupGo_count (all : List RawIssue) (standard : String) (mode : Bool)
    (shot : RawIssue → Except String (Option String)) :
    ∀ (rest : List RawIssue) (g0 g : GroupedReport),
      groupGo all standard mode shot rest g0 = Except.ok g →
      (allData g).length = (allData g0).length +
        (rest.filter (fun i => (typeBucket i.type).isSome)).length := by
  intro rest
  induction rest with
  | nil =>
    intro g0 g h
    rw [groupGo_nil] at h
    cases h
    simp
  | cons issue rest ih =>
    intro g0 g h
    rw [groupGo_cons] at h
    cases hst : groupStep all standard mode shot g0 issue with
    | error e => simp only [hst] at h; cases h
    | ok g1 =>
      simp only [hst] at h
      have hrec := ih g1 g h
      rcases groupStep_ok _ _ _ _ _ _ _ hst with ⟨htb, rfl⟩ |
        ⟨b, htb, hm, rfl⟩ | ⟨b, v, htb, hm, hsv, rfl⟩
      · rw [allData_ensureKey] at hrec
        rw [hrec, List.filter_cons_of_neg (by simp [htb])]
      · rw [allData_pushBucket_length _ _ _ _ (lookup_ensureKey_self g0 _),
          allData_ensureKey] at hrec
        rw [hrec, List.filter_cons_of_pos (by simp [htb])]
        simp
        omega
      · rw [allData_pushBucket_length _ _ _ _ (lookup_ensureKey_self g0 _),
          allData_ensureKey] at hrec
        rw [hrec, List.filter_cons_of_pos (by simp [htb])]
        simp
        omega

theorem groupGo_keys (all : List RawIssue) (standard : String) (mode : Bool)
    (shot : RawIssue → Except String (Option String)) :
    ∀ (rest : List RawIssue) (g0 g : GroupedReport),
      groupGo all standard mode shot rest g0 = Except.ok g →
      g.map Prod.fst = (rest.map (fun i => principleOf i.code)).foldl
        insertFresh (g0.map Prod.fst) := by
  intro rest
  induction rest with
  | nil =>
    intro g0 g h
    rw [groupGo_nil] at h
    cases h
    rfl
  | cons issue rest ih =>
    intro g0 g h
    rw [groupGo_cons] at h
    cases hst : groupStep all standard mode shot g0 issue with
    | error e => simp only [hst] at h; cases h
    | ok g1 =>
      simp only [hst] at h
      have hrec := ih g1 g h
      have hkeys : g1.map Prod.fst =
          insertFresh (g0.map Prod.fst) (principleOf issue.code) := by
        rcases groupStep_ok _ _ _ _ _ _ _ hst with ⟨htb, rfl⟩ |
          ⟨b, htb, hm, rfl⟩ | ⟨b, v, htb, hm, hsv, rfl⟩
        · rw [ensureKey_keys]; rfl
        · rw [pushBucket_keys, ensureKey_keys]; rfl
        · rw [pushBucket_keys, ensureKey_keys]; rfl
      rw [hrec, hkeys]
      rfl

/-- C4: every enriched issue's `occurrences` equals the number of raw
issues of the same scan's input list whose code is exactly its code; and
on the spec's three-issue example the duplicated code gets 2 and the
distinct code gets 1. -/
theorem groupIssues_occurrences_spec :
    (∀ issues standard mode shot g,
      groupIssues issues standard mode shot = Except.ok g →
      ∀ d ∈ allData g,
        d.occurrences =
          (issues.filter (fun i => i.code == d.code)).length) ∧
    (groupIssues specExampleIssues "WCAG2AA" false shot0).map
      (fun g => (allData g).map (fun d => (d.code, d.occurrences))) =
      Except.ok [("Principle1.1_1.1_1", 2), ("Principle1.1_1.1_1", 2),
        ("Principle2.4_1.2_1", 1)] := by
  constructor
  · intro issues standard mode shot g h d hd
    refine groupGo_all_data issues standard mode shot
      (fun d => d.occurrences =
        (issues.filter (fun i => i.code == d.code)).length)
      ?_ ?_ issues [] g h ?_ d hd
    · intro issue b _ _
      rfl
    · intro issue b v _ _ _
      rfl
    · intro d hd
      simp [allData] at hd
  · rfl

/-- Witness for C4: a one-issue scan, where the single enriched issue
counts its own code exactly once. -/
theorem groupIssues_occurrences_spec_witness :
    plainData.occurrences =
      ([plainIssue].filter (fun i => i.code == plainData.code)).length :=
  groupIssues_occurrences_spec.1 [plainIssue] "WCAG2A" false shot0
    [("Best Practices", ⟨[plainData], [], []⟩)] (by rfl) plainData
    (by decide)

theorem typeBucket_isSome (t : String) :
    (typeBucket t).isSome =
      (t == "error" || t == "warning" || t == "notice") := by
  unfold typeBucket
  by_cases h1 : t = "error" <;> by_cases h2 : t = "warning" <;>
    by_cases h3 : t = "notice" <;> simp [h1, h2, h3]

/-- C6: impact is High exactly for type error, Medium exactly for warning,
Low exactly for notice and Unknown exactly for every other type string;
and the grouped report holds exactly as many enriched issues as the input
has issues of the three recognized types, so an issue of any other type
lands in no bucket. -/
theorem getImpactLevel_spec :
    (∀ issue : RawIssue,
      (getImpactLevel issue = "High" ↔ issue.type = "error") ∧
      (getImpactLevel issue = "Medium" ↔ issue.type = "warning") ∧
      (getImpactLevel issue = "Low" ↔ issue.type = "notice") ∧
      (getImpactLevel issue = "Unknown" ↔ (issue.type ≠ "error" ∧
        issue.type ≠ "warning" ∧ issue.type ≠ "notice"))) ∧
    (∀ issues standard mode shot g,
      groupIssues issues standard mode shot = Except.ok g →
      (allData g).length = (issues.filter (fun i =>
        i.type == "error" || i.type == "warning" ||
          i.type == "notice")).length) := by
  constructor
  · intro issue
    by_cases h1 : issue.type = "error" <;>
      by_cases h2 : issue.type = "warning" <;>
      by_cases h3 : issue.type = "notice" <;>
      simp_all [getImpactLevel]
  · intro issues standard mode shot g h
    have hc := groupGo_count issues standard mode shot issues [] g h
    simp only [typeBucket_isSome] at hc
    simpa [allData] using hc

/-- Witness for C6: a scan whose single issue has the unrecognized type
`foo` yields a report with zero enriched issues. -/
theorem getImpactLevel_spec_witness :
    (allData [("Perceivable", emptyBuckets)]).length =
      ([fooIssue].filter (fun i =>
        i.type == "error" || i.type == "warning" ||
          i.type == "notice")).length :=
  getImpactLevel_spec.2 [fooIssue] "WCAG2AA" true
    (fun _ => Except.error "boom") [("Perceivable", emptyBuckets)]
    (by rfl)

/-- C10: the per-principle entry is created before the type check, so the
report's keys are exactly the first occurrences of the input issues'
principles, whatever the issue types; in particular a single issue of the
unrecognized type `foo` with a Principle-1 code yields a report holding
the Perceivable key with all three buckets empty — even though the
screenshot oracle would throw if it were ever consulted. -/
theorem groupIssues_keys_spec :
    (∀ issues standard mode shot g,
      groupIssues issues standard mode shot = Except.ok g →
      g.map Prod.fst = (issues.map (fun i => principleOf i.code)).foldl
        insertFresh []) ∧
    groupIssues [fooIssue] "WCAG2AA" true (fun _ => Except.error "boom") =
      Except.ok [("Perceivable", emptyBuckets)] := by
  constructor
  · intro issues standard mode shot g h
    have := groupGo_keys issues standard mode shot issues [] g h
    simpa using this
  · rfl

/-- Witness for C10: the keys of the report built from the single
`foo`-typed issue are exactly the folded principles of the input. -/
theorem groupIssues_keys_spec_witness :
    ([("Perceivable", emptyBuckets)] : GroupedReport).map Prod.fst =
      ([fooIssue].map (fun i => principleOf i.code)).foldl insertFresh [] :=
  groupIssues_keys_spec.1 [fooIssue] "WCAG2A" false shot0
    [("Perceivable", emptyBuckets)] (by rfl)

theorem captureScreenshot_result_cases (env : PuppeteerEnv)
    (selector : String) (hL : env.launch = Except.ok ())
    (hN : env.newPage = Except.ok ())
    (hC : ∀ k, env.close k = Except.ok ()) :
    (captureScreenshot env selector).result = Except.ok none ∨
    (env.goto = Except.ok () ∧ env.evalExists = Except.ok true ∧
      env.evalScroll = Except.ok () ∧ env.waitVisible = Except.ok () ∧
      (∃ el, env.query = Except.ok (some el)) ∧
      ∃ b, env.screenshot = Except.ok b ∧
        (captureScreenshot env selector).result =
          Except.ok (some ("data:image/png;base64," ++ b))) := by
  have hfc : ∀ k, finalClose env k = ⟨Except.ok none, true, k + 1, 1⟩ := by
    intro k
    unfold finalClose
    rw [hC k]
  by_cases hsel : selector = ""
  · left
    simp [captureScreenshot, hsel]
  · cases hgo : env.goto with
    | error e => left; simp [captureScreenshot, hsel, hL, hN, hgo, hfc]
    | ok u =>
      cases hex : env.evalExists with
      | error e => left; simp [captureScreenshot, hsel, hL, hN, hgo, hex, hfc]
      | ok bex =>
        cases bex with
        | false =>
          left
          simp [captureScreenshot, hsel, hL, hN, hgo, hex, hC 0]
        | true =>
          cases hsc : env.evalScroll with
          | error e =>
            left
            simp [captureScreenshot, hsel, hL, hN, hgo, hex, hsc, hfc]
          | ok u2 =>
            cases hwv : env.waitVisible with
            | error e =>
              left
              simp [captureScreenshot, hsel, hL, hN, hgo, hex, hsc, hwv, hfc]
            | ok u3 =>
              cases hq : env.query with
              | error e =>
                left
                simp [captureScreenshot, hsel, hL, hN, hgo, hex, hsc, hwv,
                  hq, hfc]
              | ok oel =>
                cases oel with
                | none =>
                  left
                  simp [captureScreenshot, hsel, hL, hN, hgo, hex, hsc, hwv,
                    hq, hfc]
                | some el =>
                  cases hsh : env.screenshot with
                  | error e =>
                    left
                    simp [captureScreenshot, hsel, hL, hN, hgo, hex, hsc,
                      hwv, hq, hsh, hfc]
                  | ok b64 =>
                    right
                    refine ⟨rfl, rfl, rfl, rfl, ⟨el, rfl⟩, b64, rfl, ?_⟩
                    simp [captureScreenshot, hsel, hL, hN, hgo, hex, hsc,
                      hwv, hq, hsh, hC 0]

/-- C1 (amended): provided browser launch, page creation and the close
calls succeed, `captureScreenshot` never throws — it returns a value, and
a failure of navigation, of the DOM existence evaluation, of the
visibility wait or of the element capture is caught and becomes a null
result. (The unamended claim fails: a launch or page-creation failure
happens outside the try/catch and propagates.) -/
theorem captureScreenshot_no_throw (env : PuppeteerEnv) (selector : String)
    (hL : env.launch = Except.ok ()) (hN : env.newPage = Except.ok ())
    (hC : ∀ k, env.close k = Except.ok ()) :
    (∃ v, (captureScreenshot env selector).result = Except.ok v) ∧
    (∀ e, env.goto = Except.error e →
      (captureScreenshot env selector).result = Except.ok none) ∧
    (∀ e, env.evalExists = Except.error e →
      (captureScreenshot env selector).result = Except.ok none) ∧
    (∀ e, env.waitVisible = Except.error e →
      (captureScreenshot env selector).result = Except.ok none) ∧
    (∀ e, env.screenshot = Except.error e →
      (captureScreenshot env selector).result = Except.ok none) := by
  have hcases := captureScreenshot_result_cases env selector hL hN hC
  refine ⟨?_, ?_, ?_, ?_, ?_⟩
  · rcases hcases with h | ⟨_, _, _, _, _, b, _, h⟩
    · exact ⟨none, h⟩
    · exact ⟨some ("data:image/png;base64," ++ b), h⟩
  · intro e he
    rcases hcases with h | ⟨hgo, _⟩
    · exact h
    · rw [he] at hgo; cases hgo
  · intro e he
    rcases hcases with h | ⟨_, hex, _⟩
    · exact h
    · rw [he] at hex; cases hex
  · intro e he
    rcases hcases with h | ⟨_, _, _, hwv, _⟩
    · exact h
    · rw [he] at hwv; cases hwv
  · intro e he
    rcases hcases with h | ⟨_, _, _, _, _, b, hsh, _⟩
    · exact h
    · rw [he] at hsh; cases hsh

/-- Counterexample to C1 as stated: when `puppeteer.launch` rejects — a
step of every call that launches a session — the exception is not caught
(the launch sits outside the try/catch), `captureScreenshot` throws, and
the same error propagates out of `groupIssues` for a one-issue list. -/
theorem captureScreenshot_throws_cex :
    (captureScreenshot envLaunchFails "h1").result =
      Except.error "Failed to launch the browser process" ∧
    groupIssues [issueH1] "WCAG2AA" true
      (shotOf (fun _ => envLaunchFails)) =
      Except.error "Failed to launch the browser process" :=
  ⟨rfl, rfl⟩

/-- Witness for C1 (amended) at a concrete environment whose navigation
times out: the failure is caught and the result is null. -/
theorem captureScreenshot_no_throw_witness :
    (captureScreenshot envGotoFails "h1").result = Except.ok none :=
  (captureScreenshot_no_throw envGotoFails "h1" rfl rfl
    (fun _ => rfl)).2.1 "Navigation timeout of 60000 ms exceeded" rfl

/-- Once the session is launched and page creation succeeds, at least one
`browser.close()` call is attempted before the function exits, on every
path through the try/catch. -/
theorem captureScreenshot_attempts (env : PuppeteerEnv) (selector : String)
    (hL : env.launch = Except.ok ()) (hN : env.newPage = Except.ok ())
    (hsel : selector ≠ "") :
    (captureScreenshot env selector).launched = true ∧
    1 ≤ (captureScreenshot env selector).closeAttempts := by
  cases hgo : env.goto with
  | error e =>
    cases hc0 : env.close 0 <;>
      simp [captureScreenshot, hsel, hL, hN, hgo, finalClose, hc0]
  | ok u =>
    cases hex : env.evalExists with
    | error e =>
      cases hc0 : env.close 0 <;>
        simp [captureScreenshot, hsel, hL, hN, hgo, hex, finalClose, hc0]
    | ok bex =>
      cases bex with
      | false =>
        cases hc0 : env.close 0 with
        | error e0 =>
          cases hc1 : env.close 1 <;>
            simp [captureScreenshot, hsel, hL, hN, hgo, hex, finalClose,
              hc0, hc1]
        | ok u0 =>
          simp [captureScreenshot, hsel, hL, hN, hgo, hex, finalClose, hc0]
      | true =>
        cases hsc : env.evalScroll with
        | error e =>
          cases hc0 : env.close 0 <;>
            simp [captureScreenshot, hsel, hL, hN, hgo, hex, hsc,
              finalClose, hc0]
        | ok u2 =>
          cases hwv : env.waitVisible with
          | error e =>
            cases hc0 : env.close 0 <;>
              simp [captureScreenshot, hsel, hL, hN, hgo, hex, hsc, hwv,
                finalClose, hc0]
          | ok u3 =>
            cases hq : env.query with
            | error e =>
              cases hc0 : env.close 0 <;>
                simp [captureScreenshot, hsel, hL, hN, hgo, hex, hsc, hwv,
                  hq, finalClose, hc0]
            | ok oel =>
              cases oel with
              | none =>
                cases hc0 : env.close 0 <;>
                  simp [captureScreenshot, hsel, hL, hN, hgo, hex, hsc,
                    hwv, hq, finalClose, hc0]
              | some el =>
                cases hsh : env.screenshot with
                | error e =>
                  cases hc0 : env.close 0 <;>
                    simp [captureScreenshot, hsel, hL, hN, hgo, hex, hsc,
                      hwv, hq, hsh, finalClose, hc0]
                | ok b64 =>
                  cases hc0 : env.close 0 with
                  | error e0 =>
                    cases hc1 : env.close 1 <;>
                      simp [captureScreenshot, hsel, hL, hN, hgo, hex, hsc,
                        hwv, hq, hsh, finalClose, hc0, hc1]
                  | ok u0 =>
                    simp [captureScreenshot, hsel, hL, hN, hgo, hex, hsc,
                      hwv, hq, hsh, finalClose, hc0]

theorem captureScreenshot_closeSuccesses (env : PuppeteerEnv)
    (selector : String) (hL : env.launch = Except.ok ())
    (hN : env.newPage = Except.ok ()) (hsel : selector ≠ "")
    (hC : ∀ k, env.close k = Except.ok ()) :
    (captureScreenshot env selector).closeSuccesses = 1 := by
  cases hgo : env.goto with
  | error e =>
    simp [captureScreenshot, hsel, hL, hN, hgo, finalClose, hC 0]
  | ok u =>
    cases hex : env.evalExists with
    | error e =>
      simp [captureScreenshot, hsel, hL, hN, hgo, hex, finalClose, hC 0]
    | ok bex =>
      cases bex with
      | false =>
        simp [captureScreenshot, hsel, hL, hN, hgo, hex, hC 0]
      | true =>
        cases hsc : env.evalScroll with
        | error e =>
          simp [captureScreenshot, hsel, hL, hN, hgo, hex, hsc, finalClose,
            hC 0]
        | ok u2 =>
          cases hwv : env.waitVisible with
          | error e =>
            simp [captureScreenshot, hsel, hL, hN, hgo, hex, hsc, hwv,
              finalClose, hC 0]
          | ok u3 =>
            cases hq : env.query with
            | error e =>
              simp [captureScreenshot, hsel, hL, hN, hgo, hex, hsc, hwv,
                hq, finalClose, hC 0]
            | ok oel =>
              cases oel with
              | none =>
                simp [captureScreenshot, hsel, hL, hN, hgo, hex, hsc, hwv,
                  hq, finalClose, hC 0]
              | some el =>
                cases hsh : env.screenshot with
                | error e =>
                  simp [captureScreenshot, hsel, hL, hN, hgo, hex, hsc,
                    hwv, hq, hsh, finalClose, hC 0]
                | ok b64 =>
                  simp [captureScreenshot, hsel, hL, hN, hgo, hex, hsc,
                    hwv, hq, hsh, hC 0]

/-- C2 (amended): once the browser session is launched and page creation
succeeds, a `browser.close()` is attempted on every exit path before the
function returns, and when the close calls succeed exactly one close
completes, so no session leaks on those paths. (The unamended claim
fails: a `newPage` failure exits with the launched session never
closed.) -/
theorem captureScreenshot_session (env : PuppeteerEnv) (selector : String)
    (hL : env.launch = Except.ok ()) (hN : env.newPage = Except.ok ())
    (hsel : selector ≠ "") :
    (captureScreenshot env selector).launched = true ∧
    1 ≤ (captureScreenshot env selector).closeAttempts ∧
    ((∀ k, env.close k = Except.ok ()) →
      (captureScreenshot env selector).closeSuccesses = 1) :=
  ⟨(captureScreenshot_attempts env selector hL hN hsel).1,
    (captureScreenshot_attempts env selector hL hN hsel).2,
    fun hC => captureScreenshot_closeSuccesses env selector hL hN hsel hC⟩

/-- Counterexample to C2 as stated: when `browser.newPage` rejects after a
successful launch, the function exits with the session launched, zero
close attempts and the exception propagating — a leaked session. -/
theorem captureScreenshot_leak_cex :
    (captureScreenshot envNewPageFails "div").launched = true ∧
    (captureScreenshot envNewPageFails "div").closeAttempts = 0 ∧
    (captureScreenshot envNewPageFails "div").result =
      Except.error "Protocol error: Connection closed" :=
  ⟨rfl, rfl, rfl⟩

/-- Witness for C2 (amended) on the all-success environment: the session
is launched, a close is attempted, and exactly one close succeeds. -/
theorem captureScreenshot_session_witness :
    (captureScreenshot envAllOk "div").launched = true ∧
    1 ≤ (captureScreenshot envAllOk "div").closeAttempts ∧
    (captureScreenshot envAllOk "div").closeSuccesses = 1 := by
  have h := captureScreenshot_session envAllOk "div" rfl rfl (by decide)
  exact ⟨h.1, h.2.1, h.2.2 (fun _ => rfl)⟩

theorem validUrl_iff (u : String) :
    validUrl u = true ↔
      ∃ rest : String, u = "http://" ++ rest ∨ u = "https://" ++ rest := by
  unfold validUrl
  rw [Bool.or_eq_true, strStarts_iff, strStarts_iff]
  constructor
  · rintro (⟨post, h⟩ | ⟨post, h⟩)
    · exact ⟨⟨post⟩, Or.inl (congrArg String.mk h)⟩
    · exact ⟨⟨post⟩, Or.inr (congrArg String.mk h)⟩
  · rintro ⟨rest, rfl | rfl⟩
    · exact Or.inl ⟨rest.data, rfl⟩
    · exact Or.inr ⟨rest.data, rfl⟩

/-- C8: for both routes, a missing `url` or one failing the `^https?://`
test yields 400 with the fixed error body and consults neither the scan
engine nor the screenshot oracle; a passing one reaches the scan stage and
yields 200 with the three results; and the URL test accepts exactly the
strings that begin with `http://` or `https://`. -/
theorem route_validation_spec (engine : String → Except String (List RawIssue))
    (shot : RawIssue → Except String (Option String)) (mode : Bool) :
    ValidationSpec engine shot mode := by
  refine ⟨rfl, ?_, ?_, ?_, validUrl_iff⟩
  · intro u hu
    by_cases he : u = ""
    · simp [handleRoute, he]
    · simp [handleRoute, he, hu]
  · intro u engine2 shot2 hu
    by_cases he : u = ""
    · simp [handleRoute, he]
    · simp [handleRoute, he, hu]
  · intro u hu
    have hne : u ≠ "" := by
      intro h
      subst h
      exact absurd hu (by decide)
    simp [handleRoute, hne, hu]

/-- Witness for C8: a concrete `ftp://` URL is rejected with 400 and a
concrete `https://` URL reaches the scan stage with 200. -/
theorem route_validation_spec_witness :
    handleRoute eng0 shot0 false (some "ftp://example.com") =
      ⟨400, RespBody.errorBody "A valid URL is required"⟩ ∧
    handleRoute eng0 shot0 false (some "https://example.com") =
      ⟨200, RespBody.results (runTests eng0 shot0 false)⟩ :=
  ⟨(route_validation_spec eng0 shot0 false).2.1 "ftp://example.com"
      (by decide),
    (route_validation_spec eng0 shot0 false).2.2.2.1 "https://example.com"
      (by decide)⟩

/-- C7: when the engine throws for WCAG2AA, the combined response still
has three entries in order, the middle one is the error-tagged WCAG2AA
entry, the outer two are the unchanged per-standard results, and every
entry depends only on the oracles' behaviour at its own standard. -/
theorem runTest_independence (engine : String → Except String (List RawIssue))
    (shot : RawIssue → Except String (Option String)) (mode : Bool)
    (msg : String) (h : engine "WCAG2AA" = Except.error msg) :
    IndependenceSpec engine shot mode msg := by
  refine ⟨rfl, ?_, rfl, rfl, ?_, ?_⟩
  · show (runTests engine shot mode)[1]? =
      some (StandardResult.failure "WCAG2AA" msg)
    simp [runTests, standardsList, runTest, h]
  · intro engine2 shot2 standard mode2 he hs
    unfold runTest
    rw [he, funext hs]
  · intro standard2 issues g he hg
    unfold runTest
    simp only [he, hg]

/-- Witness for C7 at a concrete engine oracle that throws for WCAG2AA
and returns empty issue lists otherwise. -/
theorem runTest_independence_witness :
    IndependenceSpec engAAFails shot0 false "Pa11y timed out" :=
  runTest_independence engAAFails shot0 false "Pa11y timed out" rfl

theorem captureScreenshot_dataUri (env : PuppeteerEnv) (sel s : String)
    (h : (captureScreenshot env sel).result = Except.ok (some s)) :
    ∃ b, s = "data:image/png;base64," ++ b := by
  have hfc : ∀ k, (finalClose env k).result ≠ Except.ok (some s) := by
    intro k
    unfold finalClose
    cases env.close k <;> simp
  by_cases hsel : sel = ""
  · simp [captureScreenshot, hsel] at h
  · cases hL : env.launch with
    | error e => simp [captureScreenshot, hsel, hL] at h
    | ok u0 =>
      cases hN : env.newPage with
      | error e => simp [captureScreenshot, hsel, hL, hN] at h
      | ok u1 =>
        cases hgo : env.goto with
        | error e =>
          simp [captureScreenshot, hsel, hL, hN, hgo] at h
          exact absurd h (hfc 0)
        | ok u =>
          cases hex : env.evalExists with
          | error e =>
            simp [captureScreenshot, hsel, hL, hN, hgo, hex] at h
            exact absurd h (hfc 0)
          | ok bex =>
            cases bex with
            | false =>
              simp [captureScreenshot, hsel, hL, hN, hgo, hex] at h
              cases hc0 : env.close 0 with
              | error e0 =>
                simp only [hc0] at h
                exact absurd h (hfc 1)
              | ok u2 => simp [hc0] at h
            | true =>
              cases hsc : env.evalScroll with
              | error e =>
                simp [captureScreenshot, hsel, hL, hN, hgo, hex, hsc] at h
                exact absurd h (hfc 0)
              | ok u2 =>
                cases hwv : env.waitVisible with
                | error e =>
                  simp [captureScreenshot, hsel, hL, hN, hgo, hex, hsc,
                    hwv] at h
                  exact absurd h (hfc 0)
                | ok u3 =>
                  cases hq : env.query with
                  | error e =>
                    simp [captureScreenshot, hsel, hL, hN, hgo, hex, hsc,
                      hwv, hq] at h
                    exact absurd h (hfc 0)
                  | ok oel =>
                    cases oel with
                    | none =>
                      simp [captureScreenshot, hsel, hL, hN, hgo, hex, hsc,
                        hwv, hq] at h
                      exact absurd h (hfc 0)
                    | some el =>
                      cases hsh : env.screenshot with
                      | error e =>
                        simp [captureScreenshot, hsel, hL, hN, hgo, hex,
                          hsc, hwv, hq, hsh] at h
                        exact absurd h (hfc 0)
                      | ok b64 =>
                        simp [captureScreenshot, hsel, hL, hN, hgo, hex,
                          hsc, hwv, hq, hsh] at h
                        cases hc0 : env.close 0 with
                        | error e0 =>
                          simp only [hc0] at h
                          exact absurd h (hfc 1)
                        | ok u4 =>
                          simp [hc0] at h
                          exact ⟨b64, h.symm⟩

theorem groupIssues_screenshot_none (issues : List RawIssue)
    (standard : String) (shot : RawIssue → Except String (Option String))
    (g : GroupedReport)
    (h : groupIssues issues standard false shot = Except.ok g) :
    ∀ d ∈ allData g, d.screenshot = none := by
  refine groupGo_all_data issues standard false shot
    (fun d => d.screenshot = none) ?_ ?_ issues [] g h ?_
  · intro issue b _ _
    rfl
  · intro issue b v _ hm _
    exact absurd hm (by decide)
  · intro d hd
    simp [allData] at hd

theorem groupIssues_screenshot_shape (issues : List RawIssue)
    (standard : String) (envOf : RawIssue → PuppeteerEnv)
    (g : GroupedReport)
    (h : groupIssues issues standard true (shotOf envOf) = Except.ok g) :
    ∀ d ∈ allData g, ∃ v, d.screenshot = some v ∧
      (v = none ∨ ∃ b, v = some ("data:image/png;base64," ++ b)) := by
  refine groupGo_all_data issues standard true (shotOf envOf)
    (fun d => ∃ v, d.screenshot = some v ∧
      (v = none ∨ ∃ b, v = some ("data:image/png;base64," ++ b)))
    ?_ ?_ issues [] g h ?_
  · intro issue b _ hm
    exact absurd hm (by decide)
  · intro issue b v _ _ hsv
    refine ⟨v, rfl, ?_⟩
    cases v with
    | none => exact Or.inl rfl
    | some s =>
      obtain ⟨b64, hb⟩ :=
        captureScreenshot_dataUri (envOf issue) issue.selector s hsv
      exact Or.inr ⟨b64, by rw [hb]⟩
  · intro d hd
    simp [allData] at hd

theorem runTest_standard_eq (engine : String → Except String (List RawIssue))
    (shot : RawIssue → Except String (Option String)) (standard : String)
    (mode : Bool) :
    (runTest engine shot standard mode).standard = standard := by
  unfold runTest
  split
  · rfl
  · split <;> rfl

theorem runTest_groupedOf_ok (engine : String → Except String (List RawIssue))
    (shot : RawIssue → Except String (Option String)) (standard : String)
    (mode : Bool) (g : GroupedReport)
    (h : (runTest engine shot standard mode).groupedOf = some g) :
    ∃ issues, engine standard = Except.ok issues ∧
      groupIssues issues standard mode shot = Except.ok g := by
  unfold runTest at h
  cases he : engine standard with
  | error e =>
    simp only [he, StandardResult.groupedOf] at h
    exact absurd h (by simp)
  | ok issues =>
    simp only [he] at h
    cases hg : groupIssues issues standard mode shot with
    | error e =>
      simp only [hg, StandardResult.groupedOf] at h
      exact absurd h (by simp)
    | ok g' =>
      simp only [hg, StandardResult.groupedOf, Option.some.injEq] at h
      subst h
      exact ⟨issues, rfl, hg⟩

/-- C9: for every valid URL both routes answer 200 with exactly three
results in the order WCAG2A, WCAG2AA, WCAG2AAA; no enriched issue of the
summary route carries a screenshot field, and every enriched issue of the
full route carries one holding either null or a base64 PNG data URI. -/
theorem routes_screenshot_spec (engine : String → Except String (List RawIssue))
    (envOf : RawIssue → PuppeteerEnv) (u : String)
    (hu : validUrl u = true) : RouteScreenshotSpec engine envOf u := by
  have hne : u ≠ "" := by
    intro h
    subst h
    exact absurd hu (by decide)
  refine ⟨by simp [handleRoute, hne, hu], by simp [handleRoute, hne, hu],
    ⟨rfl, ?_, ?_⟩, ⟨rfl, ?_, ?_⟩⟩
  · simp [runTests, standardsList, runTest_standard_eq]
  · intro r hr g hg d hd
    simp only [runTests, standardsList, List.map_cons, List.map_nil,
      List.mem_cons, List.not_mem_nil, or_false] at hr
    rcases hr with rfl | rfl | rfl <;>
      (obtain ⟨issues, he, hgi⟩ := runTest_groupedOf_ok _ _ _ _ _ hg;
       exact groupIssues_screenshot_none _ _ _ _ hgi d hd)
  · simp [runTests, standardsList, runTest_standard_eq]
  · intro r hr g hg d hd
    simp only [runTests, standardsList, List.map_cons, List.map_nil,
      List.mem_cons, List.not_mem_nil, or_false] at hr
    rcases hr with rfl | rfl | rfl <;>
      (obtain ⟨issues, he, hgi⟩ := runTest_groupedOf_ok _ _ _ _ _ hg;
       exact groupIssues_screenshot_shape _ _ _ _ hgi d hd)

/-- Witness for C9 at a concrete valid URL, an engine returning empty
issue lists and an all-success puppeteer environment. -/
theorem routes_screenshot_spec_witness :
    RouteScreenshotSpec eng0 (fun _ => envAllOk) "https://example.com" :=
  routes_screenshot_spec eng0 (fun _ => envAllOk) "https://example.com"
    (by decide)

end Pa11y
